import Mathlib

/-!
# ShopEZ customer bot — verification of the dialogue/session state machine

Shallow embedding of `src/bot/services/dialogue_manager.py` (and the parts of
`transaction_service.py` it calls) into Lean 4, together with theorems settling
the claims about budget parsing/filtering, the transaction workflow,
escalation, context-bleed cleanup and the main-menu reset.

Conventions of the embedding:
* Python dict keys that may be absent are `Option` fields; `context.get(k)`
  truthiness is `Option.getD · false` for booleans, non-emptiness for lists.
* Python `str` is Lean `String`; `str.lower()` is per-`Char` `Char.toLower`
  (all keywords compared against are ASCII, where the two agree).
* Machine floats are modelled as `ℚ`; Python's `float('inf')` (used only as
  the resting value of `max_price`/`max_price_jpy`) is `Option ℚ` with `none`
  standing for +∞.
* External collaborators (the GPT NLU oracle, the Pinecone search and order
  stores, the escalation service, `uuid.uuid4()`) are inputs of each step,
  collected in an `Oracle` structure.
-/

namespace ShopEZ

attribute [local semireducible] Rat.mul Rat.add Rat.sub Rat.inv Rat.ofScientific

/-! ## String utilities (Python `in`, `lower`, `upper`, slicing) -/

/-- Python `str.lower()` restricted to the ASCII range (`Char.toLower`);
all keyword tables in the source are ASCII. -/
def pyLower (s : String) : String := ⟨s.data.map Char.toLower⟩

/-- Python `str.upper()` restricted to the ASCII range. -/
def pyUpper (s : String) : String := ⟨s.data.map Char.toUpper⟩

/-- Python `s[:n]`. -/
def strTake (s : String) (n : Nat) : String := ⟨s.data.take n⟩

/-- Boolean list-prefix test (`pat` is a prefix of `l`). -/
def startsWithChars : List Char → List Char → Bool
  | [], _ => true
  | _ :: _, [] => false
  | a :: as, b :: bs => a == b && startsWithChars as bs

/-- Boolean list-infix test: does `pat` occur contiguously in `l`? -/
def hasSubstrChars (pat : List Char) : List Char → Bool
  | [] => startsWithChars pat []
  | c :: cs => startsWithChars pat (c :: cs) || hasSubstrChars pat cs

/-- Python `pat in s` (substring containment). -/
def strContains (s pat : String) : Bool := hasSubstrChars pat.data s.data

/-- Python `any(w in s for w in ws)`. -/
def containsAny (s : String) (ws : List String) : Bool :=
  ws.any (fun w => strContains s w)

/-! ## Budget parser (`_parse_budget_constraints`, lines 1094–1155)

`re.findall(r'(\d+\.?\d*)\s*k', text)` and `re.findall(r'\d+', text)` are
embedded as explicit left-to-right scanners.  For the first pattern,
greedy maximal-munch matching is complete (shrinking any of `\d+`, `\.?`,
`\d*` leaves a digit or a dot where only whitespace or `k` can follow),
so no backtracking is modelled. -/

/-- Maximal run of decimal digits at the head of the list, with the rest. -/
def takeDigits (cs : List Char) : List Char × List Char :=
  match cs with
  | [] => ([], [])
  | c :: rest =>
    if c.isDigit then
      let (d, r) := takeDigits rest
      (c :: d, r)
    else ([], cs)

/-- Maximal run of whitespace at the head of the list (Python `\s`). -/
def dropSpaces (cs : List Char) : List Char :=
  match cs with
  | [] => []
  | c :: rest => if c = ' ' || c = '\t' || c = '\n' || c = '\r' then dropSpaces rest else cs

/-- Try to match `(\d+\.?\d*)\s*k` at the head of `cs`, returning the captured
group. -/
def matchKAt (cs : List Char) : Option (List Char) :=
  let (d1, r1) := takeDigits cs
  if d1.isEmpty then none
  else
    match r1 with
    | '.' :: r2 =>
      let (d2, r3) := takeDigits r2
      if (dropSpaces r3).head? = some 'k' then some (d1 ++ '.' :: d2) else none
    | _ =>
      if (dropSpaces r1).head? = some 'k' then some d1 else none

/-- First (leftmost) match of `(\d+\.?\d*)\s*k` in `cs`: the captured group of
`re.findall(...)[0]`. -/
def firstKMatch : List Char → Option (List Char)
  | [] => none
  | c :: cs =>
    match matchKAt (c :: cs) with
    | some g => some g
    | none => firstKMatch cs

/-- First (leftmost) maximal digit run in `cs`: `re.findall(r'\d+', ...)[0]`. -/
def firstDigitRun : List Char → Option (List Char)
  | [] => none
  | c :: cs =>
    if c.isDigit then some (takeDigits (c :: cs)).1
    else firstDigitRun cs

/-- Numeric value of a digit list. -/
def digitsToNat (cs : List Char) : Nat :=
  cs.foldl (fun acc c => 10 * acc + (c.toNat - 48)) 0

/-- Python `float(...)` of a captured group `digits(.digits?)?` as a rational. -/
def groupToRat (cs : List Char) : ℚ :=
  match cs.splitOn '.' with
  | [d] => (digitsToNat d : ℚ)
  | [d, f] => (digitsToNat d : ℚ) + (digitsToNat f : ℚ) / ((10 : ℚ) ^ f.length)
  | _ => 0

/-- Values of `constraint_type`. -/
inductive CType where
  | below
  | above
  | around
  deriving DecidableEq, Repr

/-- The dict built by `_parse_budget_constraints` (`max_price_jpy = none`
stands for `float('inf')`). -/
structure BudgetConstraints where
  min_price : Option ℚ
  max_price : Option ℚ
  constraint_type : CType
  max_price_jpy : Option ℚ
  min_price_jpy : ℚ
  target_price_jpy : ℚ
  deriving DecidableEq, Repr

/-- Rate `self.yen_to_inr_rate = 0.60`. -/
def yen_to_inr_rate : ℚ := 3 / 5

def below_kws : List String :=
  ["under", "below", "less than", "upto", "max", "maximum", "at most"]

def above_kws : List String :=
  ["over", "above", "more than", "minimum", "at least"]

def around_kws : List String :=
  ["around", "about", "approximately", "~", "avg", "average"]

/-- The dict as initialised at lines 1101–1108, returned unchanged when the
phrase holds no number. -/
def defaultConstraints : BudgetConstraints :=
  { min_price := none, max_price := none, constraint_type := .around,
    max_price_jpy := none, min_price_jpy := 0, target_price_jpy := 0 }

/-- Numeric extraction of `_parse_budget_constraints` (lines 1110–1120):
first the `k`-suffixed pattern (×1000), else the first digit run. -/
def budget_amount (t : String) : Option ℚ :=
  match firstKMatch t.data with
  | some g => some (groupToRat g * 1000)
  | none =>
    match firstDigitRun t.data with
    | some d => some ((digitsToNat d : ℚ))
    | none => none

/-- Keyword classification of `_parse_budget_constraints`
(lines 1122–1154): below-words, above-words, around-words, default below. -/
def classify_budget (t : String) (amount : ℚ) : BudgetConstraints :=
  let inr := amount * yen_to_inr_rate
  if containsAny t below_kws then
    { defaultConstraints with
        max_price := some inr, max_price_jpy := some amount,
        constraint_type := .below }
  else if containsAny t above_kws then
    { defaultConstraints with
        min_price := some inr, min_price_jpy := amount,
        constraint_type := .above }
  else if containsAny t around_kws then
    { min_price := some (inr * (8/10)), max_price := some (inr * (12/10)),
      constraint_type := .around,
      max_price_jpy := some (amount * (12/10)),
      min_price_jpy := amount * (8/10),
      target_price_jpy := amount }
  else
    { defaultConstraints with
        max_price := some inr, max_price_jpy := some amount,
        constraint_type := .below }

/-- Embedding of `_parse_budget_constraints` (lines 1094–1155).  Returns `none` (Python
`None`) only for a falsy (empty) input; a non-empty phrase without a number
returns the default dict. -/
def parse_budget_constraints (budget_text : String) : Option BudgetConstraints :=
  if budget_text = "" then none
  else
    match budget_amount (pyLower budget_text) with
    | none => some defaultConstraints
    | some amount => some (classify_budget (pyLower budget_text) amount)

/-! ## Product records and the recommendation filter
(`_get_product_recommendations` lines 1268–1354, `_metadata_based_search`
lines 1356–1473) -/

/-- The fields of an extracted product record (`_extract_product_data`) that
the filter, the ranking and the claims read; `price` is already in JPY. -/
structure Product where
  name : String
  brand : String
  price : ℚ
  rating : ℚ
  score : ℚ
  deriving DecidableEq, Repr

/-- One Pinecone match: relevance score plus the result of
`_extract_product_data` (`none` when extraction failed or price ≤ 0 made it
return `None`). -/
structure RawMatch where
  score : ℚ
  product : Option Product
  deriving DecidableEq, Repr

/-- The dict returned by the recommendation functions. -/
structure RecResult where
  products : List Product
  count : Nat
  metadata_search : Bool
  deriving DecidableEq, Repr

/-- The strict manual price filter applied per candidate (lines 1296–1314 and
identically at lines 1422–1440).  For `around`, the code multiplies the
already-±20% bounds by 0.8 and 1.2 again. -/
def budget_filter_keeps (bc : BudgetConstraints) (price : ℚ) : Bool :=
  match bc.constraint_type with
  | .below =>
    match bc.max_price_jpy with
    | some m => !(price > m)
    | none => true
  | .above => !(price < bc.min_price_jpy)
  | .around =>
    let lower := bc.min_price_jpy * (8/10)
    match bc.max_price_jpy with
    | some m => !(price < lower || price > m * (12/10))
    | none => !(price < lower)

/-- The loop at lines 1285–1321: keep the matches with score > 0.1 whose extracted
record has positive price and passes the budget filter, in order. -/
def semantic_filter (semMatches : List RawMatch) (bc : Option BudgetConstraints) :
    List Product :=
  semMatches.filterMap (fun m =>
    if m.score > (1/10) then
      match m.product with
      | some p =>
        if p.price > 0 then
          match bc with
          | some b => if budget_filter_keeps b p.price then some p else none
          | none => some p
        else none
      | none => none
    else none)

/-- Python's stable ascending sort by a two-component key. -/
def sortKeyLe (k : Product → ℚ × ℚ) (a b : Product) : Bool :=
  (k a).1 < (k b).1 || ((k a).1 = (k b).1 && (k a).2 ≤ (k b).2)

/-- Insert `a` before the first element `b` with `le a b` (keeps equal keys
in arrival order). -/
def insertSorted (le : Product → Product → Bool) (a : Product) :
    List Product → List Product
  | [] => [a]
  | b :: bs => if le a b then a :: b :: bs else b :: insertSorted le a bs

/-- Python `list.sort(key=…)` is a stable ascending sort; all stable sorts
under a total preorder agree, so it is modelled as stable insertion sort. -/
def stableSort (le : Product → Product → Bool) : List Product → List Product
  | [] => []
  | a :: as => insertSorted le a (stableSort le as)

/-- Ranking on the semantic-search path (lines 1326–1336). -/
def semantic_sort (bc : Option BudgetConstraints) (ps : List Product) :
    List Product :=
  match bc with
  | some b =>
    match b.constraint_type with
    | .below => stableSort (sortKeyLe (fun x => (-x.price, -x.rating))) ps
    | .above => stableSort (sortKeyLe (fun x => (x.price, -x.rating))) ps
    | .around =>
      stableSort (sortKeyLe (fun x => (|x.price - b.target_price_jpy|, -x.rating))) ps
  | none => stableSort (sortKeyLe (fun x => (-x.score, -x.rating))) ps

/-- Ranking on the metadata path (lines 1448–1459); it differs from the
semantic path only in the unconstrained case. -/
def metadata_sort (bc : Option BudgetConstraints) (ps : List Product) :
    List Product :=
  match bc with
  | some _ => semantic_sort bc ps
  | none => stableSort (sortKeyLe (fun x => (-x.rating, x.price))) ps

/-- Brand list of `_metadata_based_search` (lines 1366–1368). -/
def brands_meta : List String :=
  ["dell", "hp", "lenovo", "apple", "asus", "acer", "infinix", "msi", "realme",
   "redmi", "gigabyte", "samsung", "avita", "redmibook"]

/-- Embedding of `_metadata_based_search` (lines 1356–1473): only runs when a brand keyword
occurs in the query; applies the same price filter (without the score
threshold), sorts and truncates to 6.  `metaMatches` are the collaborator's
results for the metadata-only query. -/
def metadata_based_search (query : String) (metaMatches : List RawMatch)
    (bc : Option BudgetConstraints) : Option RecResult :=
  let ql := pyLower query
  match brands_meta.find? (fun b => strContains ql b) with
  | none => none
  | some _ =>
    let ps := metaMatches.filterMap (fun m =>
      match m.product with
      | some p =>
        if p.price > 0 then
          match bc with
          | some b => if budget_filter_keeps b p.price then some p else none
          | none => some p
        else none
      | none => none)
    if ps.isEmpty then none
    else some { products := (metadata_sort bc ps).take 6, count := ps.length,
                metadata_search := true }

/-- Embedding of `_get_product_recommendations` (lines 1268–1354): semantic path, falling
back to the metadata search when it yields nothing. -/
def get_product_recommendations (semMatches metaMatches : List RawMatch)
    (query : String) (bc : Option BudgetConstraints) : Option RecResult :=
  let ps := semantic_filter semMatches bc
  if ps.isEmpty then metadata_based_search query metaMatches bc
  else some { products := (semantic_sort bc ps).take 6, count := ps.length,
              metadata_search := false }

/-! ## Session data model -/

/-- Identity snapshot (only its identity matters to the claims). -/
structure UserData where
  user_id : String
  deriving DecidableEq, Repr

/-- An order record as produced by `_get_order_info`. -/
structure Order where
  order_id : String
  product_name : String
  price : ℚ
  status : String
  deriving DecidableEq, Repr

/-- The three `transaction_type` strings  (`ret` stands for Python's
`'return'`). -/
inductive TxType where
  | cancellation
  | ret
  | warranty
  deriving DecidableEq, Repr

/-- The per-session context dict: `none` = key absent.  Keys the NLU merge
(`self.context.update(entities)`) can add — `brand`, `max_price`, plain
`order_id`, … — are never read back through `self.context` by the code, so
they are not tracked. -/
structure Ctx where
  user_data : Option UserData := none
  in_purchase_flow : Option Bool := none
  awaiting_confirmation : Option Bool := none
  awaiting_reason : Option Bool := none
  awaiting_order_id : Option Bool := none
  awaiting_warranty_confirmation : Option Bool := none
  transaction_type : Option TxType := none
  transaction_reason : Option String := none
  current_order : Option Order := none
  current_order_id : Option String := none
  current_products : Option (List Product) := none
  last_search_query : Option String := none
  deriving DecidableEq, Repr

/-- Python truthiness of `context.get(flag)`. -/
def truthy (o : Option Bool) : Bool := o.getD false

/-- Python truthiness of an optional string (absent or `''` are falsy). -/
def truthyStr (o : Option String) : Bool :=
  match o with
  | some s => !(s = "")
  | none => false

/-- Python truthiness of `context.get('current_products')`. -/
def truthyProducts (o : Option (List Product)) : Bool :=
  match o with
  | some (_ :: _) => true
  | _ => false

/-- The `DialogueManager` instance state that survives between messages of a
session: the context plus `self.user_data` (`none` = the initial `{}`),
`self.response_count`, `self.escalation_offered`, `self.escalation_pending`. -/
structure BotState where
  ctx : Ctx
  user_data : Option UserData := none
  response_count : Nat := 0
  escalation_offered : Bool := false
  escalation_pending : Bool := false
  deriving DecidableEq, Repr

/-- The entity map extracted by `_understand_with_gpt` (only the keys the
router reads). -/
structure Entities where
  order_id : Option String := none
  reason : Option String := none
  max_price : Option String := none
  brand : Option String := none
  deriving DecidableEq, Repr

/-- All external collaborator behaviour for one message: the GPT NLU result
(used when the fast local rules do not fire), the order store, the product
search results, the comparison pipeline outcome, the escalation result, and
the `uuid.uuid4()` string drawn on commit. -/
structure Oracle where
  intent : String := "general_question"
  entities : Entities := {}
  getOrder : String → Option Order := fun _ => none
  search_query : String := ""
  semMatches : List RawMatch := []
  metaMatches : List RawMatch := []
  userOrders : List Order := []
  comparison_ok : Bool := false
  escalate_success : Bool := false
  uuid : String := ""

/-- Which handler produced the turn's response (mirrors the code's dispatch
branches; instrumentation for stating routing claims). -/
inductive Handler where
  | mainMenu
  | escalationResponse
  | escalationOffer
  | warrantyPolicyInquiry
  | contextSwitchGpt
  | gptDirect
  | comparison
  | colorInquiry
  | purchaseFlow
  | noProducts
  | txConfirmation
  | txReason
  | txOrderId
  | warrantyConfirmation
  | txIntent
  | orderStatus
  | tracking
  | gpt
  | fallback
  deriving DecidableEq, Repr

/-- The structured parts of the response dict that the claims read. -/
structure Resp where
  handledBy : Handler
  message : Option String := none
  committed : Option (TxType × String) := none
  escalated : Bool := false
  reset_context : Bool := false
  deriving DecidableEq, Repr

/-! ## Keyword tables (verbatim from the source) -/

def menu_cmds : List String := ["main menu", "menu", "home", "ホーム", "メインメニュー"]

def purchase_kws : List String := ["laptop", "buy", "purchase", "computer"]

def comparison_kws : List String :=
  ["compare", "comparison", "vs", "versus", "difference between"]

def color_kws : List String :=
  ["color", "colour", "blue", "red", "black", "silver", "gray", "white"]

def policy_kws : List String :=
  ["warranty policy", "warranty information", "warranty terms",
   "warranty coverage", "what is covered", "warranty details",
   "policy", "policies", "terms and conditions", "what is the warranty",
   "how does warranty work", "warranty period"]

def claim_kws : List String :=
  ["warranty claim", "file warranty", "make warranty", "request warranty",
   "warranty request", "need warranty", "want warranty"]

def warranty_queries : List String :=
  ["warranty claim", "warranty request", "file warranty", "make warranty"]

def confirmation_words : List String :=
  ["yes", "confirm", "proceed", "ok", "okay", "yeah", "yep", "sure"]

def warranty_positive_responses : List String :=
  ["yes", "yeah", "yep", "sure", "ok", "okay", "proceed", "confirm",
   "continue", "ok", "alright"]

def escalation_affirm_words : List String :=
  ["yes", "yeah", "yep", "sure", "ok", "okay", "connect", "agent", "human"]

def gpt_comparison_kws : List String :=
  ["compare", "comparison", "vs", "versus", "difference between",
   "which is better"]

/-- Table `general_chat_patterns` at lines 292–297; these are tested with Python
`in` (plain substring), so the entries containing `.*` can never match. -/
def general_chat_patterns : List String :=
  ["is this.*available in", "how do i track", "can i return",
   "what.*warranty", "how.*return", "where.*track",
   "do you have", "when will", "how long", "what is",
   "tell me about", "explain", "help with"]

def complex_indicators : List String :=
  ["what is the difference", "how does", "why should", "tell me about",
   "explain", "pros and cons", "advantages and disadvantages"]

def brands_understand : List String :=
  ["acer", "hp", "lenovo", "dell", "apple", "asus", "infinix", "msi",
   "realme", "redmi", "gigabyte", "samsung", "avita", "redmibook"]

def order_status_action_kws : List String := ["track", "warranty", "cancel", "return"]

/-! ## Order-id extraction
`re.search(r'ORD[_-]?\d+', msg, re.IGNORECASE)` with the upper/replace
normalisation of lines 195–199 / 978–982 (both normalise any match to `ORD-`
followed by its digits), and `re.search(r'ORD-\d+', msg, re.IGNORECASE)` with
`.upper()`. -/

/-- Match `ORD[_-]?\d+` (case-insensitively) at the head of `cs`, returning
the digits.  The optional separator must be followed by a digit (regex
backtracking cannot succeed otherwise). -/
def matchOrdAt (cs : List Char) : Option (List Char) :=
  match cs with
  | o :: r :: d :: rest =>
    if o.toLower = 'o' && r.toLower = 'r' && d.toLower = 'd' then
      let body := match rest with
        | c :: tl => if c = '_' || c = '-' then tl else rest
        | [] => []
      let ds := (takeDigits body).1
      if ds.isEmpty then none else some ds
    else none
  | _ => none

def findOrdDigits : List Char → Option (List Char)
  | [] => none
  | c :: cs =>
    match matchOrdAt (c :: cs) with
    | some ds => some ds
    | none => findOrdDigits cs

/-- First `ORD[_-]?\d+` match, normalised to `ORD-<digits>`. -/
def findOrderId (msg : String) : Option String :=
  (findOrdDigits msg.data).map (fun ds => "ORD-" ++ (⟨ds⟩ : String))

/-- Match `ORD-\d+` (case-insensitively) at the head of `cs`. -/
def matchOrdHyphenAt (cs : List Char) : Option (List Char) :=
  match cs with
  | o :: r :: d :: h :: rest =>
    if o.toLower = 'o' && r.toLower = 'r' && d.toLower = 'd' && h = '-' then
      let ds := (takeDigits rest).1
      if ds.isEmpty then none else some ds
    else none
  | _ => none

def findOrdHyphenDigits : List Char → Option (List Char)
  | [] => none
  | c :: cs =>
    match matchOrdHyphenAt (c :: cs) with
    | some ds => some ds
    | none => findOrdHyphenDigits cs

/-- First `ORD-\d+` match, upper-cased. -/
def findOrderIdHyphen (msg : String) : Option String :=
  (findOrdHyphenDigits msg.data).map (fun ds => "ORD-" ++ (⟨ds⟩ : String))

/-! ## Handlers (each mirrors one method of `DialogueManager`) -/

/-- Embedding of `_reset_transaction_context` (lines 1996–2004): pop the nine
transaction-related keys. -/
def reset_transaction_context (c : Ctx) : Ctx :=
  { c with awaiting_confirmation := none, transaction_type := none,
           transaction_reason := none, current_order := none,
           current_order_id := none, awaiting_reason := none,
           awaiting_order_id := none,
           awaiting_warranty_confirmation := none }

/-- Context effect of `_handle_with_gpt` (lines 2139–2145): pop
`current_products` and `last_search_query` unless `in_purchase_flow` is
truthy.  `tag` records which call site produced the GPT response. -/
def gptRespond (tag : Handler) (c : Ctx) : Ctx × Resp :=
  (if truthy c.in_purchase_flow then c
   else { c with current_products := none, last_search_query := none },
   { handledBy := tag })

/-- Embedding of `_handle_main_menu` (lines 576–602), reached before `self.user_data` is
refreshed (line 65 precedes line 71): the context is replaced by
`{'user_data': self.user_data}`, the escalation counters reset; the
subsequent pops remove nothing from the fresh dict. -/
def handle_main_menu (st : BotState) : BotState × Resp :=
  ({ st with ctx := { user_data := st.user_data },
             response_count := 0, escalation_offered := false,
             escalation_pending := false },
   { handledBy := .mainMenu, reset_context := true })

/-- Embedding of `_is_warranty_policy_inquiry` (lines 215–235). -/
def is_warranty_policy_inquiry (msg : String) : Bool :=
  let m := pyLower msg
  containsAny m policy_kws && !(containsAny m claim_kws)

/-- Embedding of `_handle_warranty_policy_inquiry` (lines 237–255): shows the policy text
and sets `awaiting_warranty_confirmation` (clearing nothing else). -/
def handle_warranty_policy_inquiry (c : Ctx) : Ctx × Resp :=
  ({ c with awaiting_warranty_confirmation := some true },
   { handledBy := .warrantyPolicyInquiry })

/-- The affirmative test of `_handle_warranty_confirmation` (lines 261–264). -/
def warranty_affirmative (msg : String) : Bool :=
  containsAny (pyLower msg) warranty_positive_responses

/-- Embedding of `_handle_warranty_confirmation` (lines 257–279).  The negative branch
only sets the flag to `False` (it does not call
`_reset_transaction_context`) and answers through `_handle_with_gpt`. -/
def handle_warranty_confirmation (c : Ctx) (msg : String) : Ctx × Resp :=
  if warranty_affirmative msg then
    ({ c with awaiting_warranty_confirmation := some false,
              awaiting_reason := some true },
     { handledBy := .warrantyConfirmation })
  else
    gptRespond .warrantyConfirmation
      { c with awaiting_warranty_confirmation := some false }

/-- Embedding of `_should_use_gpt_directly` (lines 281–313). -/
def should_use_gpt_directly (msg : String) : Bool :=
  decide (1 ≤ msg.data.count '\n')
  || containsAny (pyLower msg) gpt_comparison_kws
  || containsAny (pyLower msg) general_chat_patterns
  || containsAny (pyLower msg) complex_indicators

/-- Embedding of `_offer_escalation` (lines 315–325): sets `escalation_offered` only;
`escalation_pending` is NOT set (nothing in the code ever sets it). -/
def offer_escalation (st : BotState) : BotState × Resp :=
  ({ st with escalation_offered := true }, { handledBy := .escalationOffer })

/-- The affirmative test of `_handle_escalation_response` (line 331). -/
def escalation_affirmative (msg : String) : Bool :=
  containsAny (pyLower msg) escalation_affirm_words

/-- Embedding of `_handle_escalation_response` (lines 327–358), as written.  (The called
`escalation_service.escalate_to_agent` does not actually exist on
`EscalationService`; the collaborator result is supplied by the oracle.) -/
def handle_escalation_response (st : BotState) (msg : String) (o : Oracle) :
    BotState × Resp :=
  if escalation_affirmative msg then
    let st := { st with escalation_pending := false }
    if o.escalate_success then
      (st, { handledBy := .escalationResponse, escalated := true })
    else
      (st, { handledBy := .escalationResponse })
  else
    let st := { st with escalation_pending := false }
    let p := gptRespond .gpt st.ctx
    ({ st with ctx := p.1 }, p.2)

/-- Embedding of `TransactionService._generate_transaction_id` (lines 87–89):
`f"{prefix}-{str(uuid.uuid4())[:8].upper()}"`. -/
def generate_transaction_id (pre : String) (uuid : String) : String :=
  pre ++ "-" ++ pyUpper (strTake uuid 8)

def txPrefix : TxType → String
  | .cancellation => "CXL"
  | .ret => "REF"
  | .warranty => "WAR"

def cancellation_reasons : List String :=
  ["Found better price elsewhere", "Changed my mind", "Ordered by mistake",
   "Delivery too long", "Other"]

def return_reasons : List String :=
  ["Faulty/Defective", "Wrong item received", "Item not as described",
   "No longer needed", "Other"]

def warranty_reasons : List String :=
  ["Battery issues", "Screen problems", "Performance issues",
   "Hardware failure", "Software problems", "Other"]

/-- Embedding of `TransactionService.get_reasons` (lines 91–99). -/
def get_reasons : TxType → List String
  | .cancellation => cancellation_reasons
  | .ret => return_reasons
  | .warranty => warranty_reasons

/-- The ordered keyword table of `_map_reason_response` (lines 2107–2123). -/
def reason_mapping : List (String × String) :=
  [("fault", "Faulty/Defective"), ("faulty", "Faulty/Defective"),
   ("defective", "Faulty/Defective"), ("broken", "Faulty/Defective"),
   ("not working", "Faulty/Defective"), ("damaged", "Faulty/Defective"),
   ("wrong", "Wrong item received"), ("incorrect", "Wrong item received"),
   ("different", "Wrong item received"),
   ("not as described", "Item not as described"),
   ("description", "Item not as described"),
   ("changed mind", "No longer needed"), ("dont need", "No longer needed"),
   ("no need", "No longer needed"), ("other", "Other")]

/-- Embedding of `_map_reason_response` (lines 2102–2137). -/
def map_reason_response (user_reason : String) (valid : List String) : String :=
  let u := (pyLower user_reason).trim
  match reason_mapping.find? (fun kv =>
      strContains u kv.1 && valid.contains kv.2) with
  | some kv => kv.2
  | none =>
    match valid.find? (fun vr =>
        ((pyLower vr).splitOn " ").any (fun w => strContains u w)) with
    | some vr => vr
    | none => "Other"

/-- The affirmative test of `_handle_transaction_confirmation`
(lines 1933–1935). -/
def tx_affirmative (msg : String) : Bool :=
  containsAny (pyLower msg) confirmation_words

/-- Embedding of `_handle_transaction_confirmation` (lines 1917–1981).  With
`transaction_type = None` both the commit and the decline branch raise
(unbound `transaction_id` / `None.capitalize()`), caught by the top-level
handler (`Handler.fallback`, context untouched). -/
def handle_transaction_confirmation (c : Ctx) (msg : String) (uuid : String) :
    Ctx × Resp :=
  if !c.current_order.isSome || !truthyStr c.transaction_reason then
    gptRespond .txConfirmation (reset_transaction_context c)
  else if tx_affirmative msg then
    match c.transaction_type with
    | some tt =>
      (reset_transaction_context c,
       { handledBy := .txConfirmation,
         committed := some (tt, generate_transaction_id (txPrefix tt) uuid) })
    | none => (c, { handledBy := .fallback })
  else
    match c.transaction_type with
    | some _ => gptRespond .txConfirmation (reset_transaction_context c)
    | none => (c, { handledBy := .fallback })

/-- Embedding of `_show_order_and_ask_for_reason` (lines 1733–1753). -/
def show_order_and_ask_for_reason (c : Ctx) : Ctx × Resp :=
  ({ c with awaiting_reason := some true }, { handledBy := .txIntent })

def intent_to_txtype (intent : String) : Option TxType :=
  if intent = "cancellation_request" then some .cancellation
  else if intent = "return_request" then some .ret
  else if intent = "warranty_claim" then some .warranty
  else none

def cancellation_delivered_msg : String :=
  "This order has already been delivered. Cancellation is not possible for delivered orders. Would you like to initiate a return instead?"

def return_wrong_status_msg (status : String) : String :=
  "This order has status: " ++ status ++ ". Returns are only possible for delivered items."

def warranty_wrong_status_msg (status : String) : String :=
  "This order has status: " ++ status ++ ". Warranty claims are only possible for delivered items."

/-- Embedding of `_handle_transaction_intent` (lines 1628–1731): eligibility gating by
order status when an order id is known, otherwise ask for the order id.
`entities.get('order_id') or context.get('current_order_id')` falls through
on a falsy (empty) entity value. -/
def handle_transaction_intent (c : Ctx) (intent : String) (ents : Entities)
    (o : Oracle) : Ctx × Resp :=
  let order_id? : Option String :=
    match ents.order_id with
    | some i => if i = "" then c.current_order_id else some i
    | none => c.current_order_id
  let tt? := intent_to_txtype intent
  let c := match tt? with
    | some tt => { c with transaction_type := some tt }
    | none => c
  if truthyStr order_id? then
    match order_id? with
    | some oid =>
      match o.getOrder oid with
      | some od =>
        let c := { c with current_order := some od, current_order_id := some oid }
        let status := pyLower od.status
        match tt? with
        | some .cancellation =>
          if status = "delivered" then
            (c, { handledBy := .txIntent, message := some cancellation_delivered_msg })
          else show_order_and_ask_for_reason c
        | some .ret =>
          if status ≠ "delivered" then
            (c, { handledBy := .txIntent, message := some (return_wrong_status_msg status) })
          else show_order_and_ask_for_reason c
        | some .warranty =>
          if status ≠ "delivered" then
            (c, { handledBy := .txIntent, message := some (warranty_wrong_status_msg status) })
          else show_order_and_ask_for_reason c
        | none =>
          -- the if/elif chain falls through and the method returns Python
          -- `None`; `handle_message` then raises on `response["response"]`
          -- and the top-level handler answers
          (c, { handledBy := .fallback })
      | none => gptRespond .txIntent c
    | none => (c, { handledBy := .fallback })
  else
    ({ c with awaiting_order_id := some true }, { handledBy := .txIntent })

/-- Embedding of `_handle_reason_response` (lines 1892–1915). -/
def handle_reason_response (c : Ctx) (msg : String) (ents : Entities) :
    Ctx × Resp :=
  match c.current_order with
  | none => gptRespond .txReason c
  | some _ =>
    let valid := match c.transaction_type with
      | some t => get_reasons t
      | none => []
    let user_reason := match ents.reason with
      | some r => if r = "" then msg.trim else r
      | none => msg.trim
    let reason := map_reason_response user_reason valid
    ({ c with transaction_reason := some reason, awaiting_reason := some false,
              awaiting_confirmation := some true },
     { handledBy := .txReason })

/-- Embedding of `_handle_order_id_response` (lines 604–678).  Note: for `cancellation`
and `return` transaction types this branch only shows the order grid — it
does not run the eligibility check and sets no further flag. -/
def handle_order_id_response (c : Ctx) (msg : String) (ents : Entities)
    (o : Oracle) : Ctx × Resp :=
  let oid? : Option String :=
    match ents.order_id with
    | some i => if i = "" then findOrderIdHyphen msg else some i
    | none => findOrderIdHyphen msg
  match oid? with
  | some oid =>
    let c := { c with current_order_id := some oid,
                      awaiting_order_id := some false }
    match o.getOrder oid with
    | some od =>
      let c := { c with current_order := some od }
      if c.transaction_type = some .warranty then
        ({ c with awaiting_warranty_confirmation := some true },
         { handledBy := .warrantyPolicyInquiry })
      else
        (c, { handledBy := .txOrderId })
    | none => gptRespond .txOrderId c
  | none => gptRespond .txOrderId c

/-- Embedding of `_handle_context_switching` (lines 178–213): warranty-claim phrasing
clears the purchase keys and either enters the transaction workflow (order id
embedded) or asks for the order id; otherwise the method returns `None`. -/
def handle_context_switching (c : Ctx) (msg : String) (o : Oracle) :
    Option (Ctx × Resp) :=
  if is_warranty_policy_inquiry msg then some (handle_warranty_policy_inquiry c)
  else if containsAny (pyLower msg) warranty_queries then
    let c := { c with current_products := none, last_search_query := none,
                      in_purchase_flow := none }
    match findOrderId msg with
    | some oid =>
      some (handle_transaction_intent c "warranty_claim" { order_id := some oid } o)
    | none =>
      let c := { c with awaiting_order_id := some true,
                        transaction_type := some .warranty }
      some (gptRespond .contextSwitchGpt c)
  else none

/-- Embedding of `_handle_tracking_request` (lines 680–715). -/
def handle_tracking_request (c : Ctx) (oid : String) (o : Oracle) : Ctx × Resp :=
  match o.getOrder oid with
  | none => gptRespond .tracking c
  | some _ => (c, { handledBy := .tracking })

/-- Lines 518–574 of `_handle_order_status`: a specific order by entity id,
else the user's recent orders. -/
def handle_order_status_byId (c : Ctx) (ents : Entities) (o : Oracle) :
    Ctx × Resp :=
  if truthyStr ents.order_id then
    match ents.order_id with
    | some oid =>
      match o.getOrder oid with
      | some _ => (c, { handledBy := .orderStatus })
      | none => gptRespond .orderStatus c
    | none => gptRespond .orderStatus c
  else
    if o.userOrders.isEmpty then gptRespond .orderStatus c
    else (c, { handledBy := .orderStatus })

/-- Lines 512–516 of `_handle_order_status`: explicit tracking phrasing,
else the by-id/recent-orders tail. -/
def handle_order_status_tail (c : Ctx) (msg : String) (ents : Entities)
    (o : Oracle) : Ctx × Resp :=
  if msg.startsWith "Track order "
      || (strContains (pyLower msg) "track" && strContains msg "ORD-") then
    match findOrderIdHyphen msg with
    | some oid => handle_tracking_request c oid o
    | none => handle_order_status_byId c ents o
  else handle_order_status_byId c ents o

/-- Embedding of `_handle_order_status` (lines 491–574). -/
def handle_order_status (c : Ctx) (msg : String) (ents : Entities)
    (o : Oracle) : Ctx × Resp :=
  let ml := pyLower msg
  if containsAny ml order_status_action_kws then
    match findOrderIdHyphen msg with
    | some oid =>
      if strContains ml "track" then handle_tracking_request c oid o
      else if strContains ml "warranty" then
        handle_transaction_intent c "warranty_claim" ents o
      else if strContains ml "cancel" then
        handle_transaction_intent c "cancellation_request" ents o
      else handle_transaction_intent c "return_request" ents o
    | none => handle_order_status_tail c msg ents o
  else handle_order_status_tail c msg ents o

/-- Embedding of `_handle_purchase_flow` (lines 1157–1201). -/
def handle_purchase_flow (c : Ctx) (ents : Entities) (o : Oracle) :
    Ctx × Resp :=
  let c := { c with last_search_query := some o.search_query }
  let bc : Option BudgetConstraints :=
    match ents.max_price with
    | some bt => parse_budget_constraints bt
    | none => none
  match get_product_recommendations o.semMatches o.metaMatches o.search_query bc with
  | some r =>
    if r.products.isEmpty then (c, { handledBy := .noProducts })
    else ({ c with current_products := some r.products },
          { handledBy := .purchaseFlow })
  | none => (c, { handledBy := .noProducts })

/-- Embedding of `_understand_with_gpt` (lines 973–1092): fast local rules (order-id
pattern, then brand keyword) take precedence over the GPT oracle. -/
def understand (msg : String) (o : Oracle) : String × Entities :=
  match findOrderId msg with
  | some oid => ("order_status", { order_id := some oid })
  | none =>
    match brands_understand.find? (fun b => strContains (pyLower msg) b) with
    | some b => ("product_inquiry", { brand := some b })
    | none => (o.intent, o.entities)

/-- The dispatch chain of `handle_message` (lines 132–164). -/
def routeDispatch (c : Ctx) (msg : String) (intent : String) (ents : Entities)
    (o : Oracle) : Ctx × Resp :=
  let ml := pyLower msg
  if containsAny ml comparison_kws then
    if o.comparison_ok then (c, { handledBy := .comparison })
    else gptRespond .comparison c
  else if truthyProducts c.current_products && containsAny ml color_kws then
    (c, { handledBy := .colorInquiry })
  else if intent = "product_inquiry" || truthy c.in_purchase_flow
      || containsAny ml purchase_kws then
    handle_purchase_flow { c with in_purchase_flow := some true } ents o
  else if truthy c.awaiting_confirmation then
    handle_transaction_confirmation c msg o.uuid
  else if truthy c.awaiting_reason then
    handle_reason_response c msg ents
  else if truthy c.awaiting_order_id then
    handle_order_id_response c msg ents o
  else if truthy c.awaiting_warranty_confirmation then
    handle_warranty_confirmation c msg
  else if intent = "return_request" || intent = "cancellation_request"
      || intent = "warranty_claim" then
    handle_transaction_intent c intent ents o
  else if intent = "order_status" then
    handle_order_status c msg ents o
  else gptRespond .gpt c

/-- The body of `handle_message`'s `try` block (lines 90–164): warranty
policy inquiry, context switching, direct-to-GPT, NLU, context-bleed
cleanup, dispatch.  `self.context.update(entities)` adds only keys this
embedding does not track (see `Ctx`). -/
def routeBody (c : Ctx) (msg : String) (o : Oracle) : Ctx × Resp :=
  if is_warranty_policy_inquiry msg then handle_warranty_policy_inquiry c
  else
    match handle_context_switching c msg o with
    | some res => res
    | none =>
      if should_use_gpt_directly msg then gptRespond .gptDirect c
      else
        let ie := understand msg o
        let intent := ie.1
        let ents := ie.2
        let c :=
          if intent = "order_status" && truthy c.in_purchase_flow then
            { c with in_purchase_flow := some false, current_products := none,
                     last_search_query := none }
          else c
        let c :=
          if intent ≠ "product_inquiry" && !truthy c.in_purchase_flow
              && !containsAny (pyLower msg) purchase_kws then
            { c with current_products := none, last_search_query := none,
                     in_purchase_flow := none }
          else c
        routeDispatch c msg intent ents o

/-- Lines 69–74: refresh `self.user_data` from the argument and seed
`context['user_data']` when the key is absent. -/
def refresh_user (st : BotState) (user : UserData) : BotState :=
  { st with user_data := some user,
            ctx := match st.ctx.user_data with
                   | none => { st.ctx with user_data := some user }
                   | some _ => st.ctx }

/-- Embedding of `handle_message` (lines 63–176): the main-menu short-circuit (before
`self.user_data` is refreshed), context initialisation, the (dead)
escalation-pending check, the turn counter and escalation offer, then the
routed body. -/
def step (st : BotState) (msg : String) (user : UserData) (o : Oracle) :
    BotState × Resp :=
  if menu_cmds.contains (pyLower msg) then handle_main_menu st
  else
    let st := refresh_user st user
    if st.escalation_pending then handle_escalation_response st msg o
    else
      let st := { st with response_count := st.response_count + 1 }
      if 4 ≤ st.response_count && !st.escalation_offered then
        offer_escalation st
      else
        let p := routeBody st.ctx msg o
        ({ st with ctx := p.1 }, p.2)

/-- Fresh session state after `main.py` initialises the context to
`{"user_data": user}` (`self.user_data` on the manager still `{}`). -/
def initState (user : UserData) : BotState :=
  { ctx := { user_data := some user } }

/-- Run a sequence of messages for one session, returning final state and
each message's response. -/
def runAll (user : UserData) : BotState → List (String × Oracle) →
    BotState × List Resp
  | st, [] => (st, [])
  | st, (m, o) :: rest =>
    let p := step st m user o
    let q := runAll user p.1 rest
    (q.1, p.2 :: q.2)

/-! ## Derived state predicates used by the theorems -/

def b2n (b : Bool) : Nat := if b then 1 else 0

/-- How many of the four `awaiting_*` context flags are truthy. -/
def ctxWaitCount (c : Ctx) : Nat :=
  b2n (truthy c.awaiting_confirmation) + b2n (truthy c.awaiting_reason)
  + b2n (truthy c.awaiting_order_id)
  + b2n (truthy c.awaiting_warranty_confirmation)

/-- How many of the five mutually-exclusive waiting states of the spec's
invariant hold. -/
def waitCount (st : BotState) : Nat :=
  ctxWaitCount st.ctx + b2n st.escalation_pending

/-- All nine transaction-related context keys are absent. -/
def txContextClear (c : Ctx) : Prop :=
  c.awaiting_confirmation = none ∧ c.awaiting_reason = none
  ∧ c.awaiting_order_id = none ∧ c.awaiting_warranty_confirmation = none
  ∧ c.transaction_type = none ∧ c.transaction_reason = none
  ∧ c.current_order = none ∧ c.current_order_id = none

/-- The three purchase-context keys are absent. -/
def purchaseKeysClear (c : Ctx) : Prop :=
  c.current_products = none ∧ c.last_search_query = none
  ∧ c.in_purchase_flow = none

instance (c : Ctx) : Decidable (txContextClear c) := by
  unfold txContextClear
  infer_instance

instance (c : Ctx) : Decidable (purchaseKeysClear c) := by
  unfold purchaseKeysClear
  infer_instance

/-- None of the four `awaiting_*` flags is truthy. -/
def ctxWaitClear (c : Ctx) : Prop :=
  truthy c.awaiting_confirmation = false ∧ truthy c.awaiting_reason = false
  ∧ truthy c.awaiting_order_id = false
  ∧ truthy c.awaiting_warranty_confirmation = false

instance (c : Ctx) : Decidable (ctxWaitClear c) := by
  unfold ctxWaitClear
  infer_instance

/-! ## Concrete fixtures for the counterexample/witness theorems -/

def u0 : UserData := { user_id := "U1" }

def ordDelivered : Order :=
  { order_id := "ORD-1001", product_name := "HP Pavilion Gaming Laptop",
    price := 149833, status := "Delivered" }

def ordConfirmed : Order :=
  { order_id := "ORD-1005", product_name := "APPLE 2020 Macbook Air M1",
    price := 241638, status := "Confirmed" }

/-- A two-order store (mirrors `_get_sample_order_info`'s shape). -/
def sampleStore : String → Option Order := fun i =>
  if i = "ORD-1001" then some ordDelivered
  else if i = "ORD-1005" then some ordConfirmed
  else none

def prodX : Product :=
  { name := "Pavilion 14", brand := "HP", price := 50000, rating := 4,
    score := 9/10 }

def prod130k : Product :=
  { name := "Inspiron 15", brand := "Dell", price := 130000, rating := 42/10,
    score := 9/10 }

/-- A session mid-transaction at `AWAITING_CONFIRMATION` for a return. -/
def ctxConfirmFix : Ctx :=
  { user_data := some u0, awaiting_confirmation := some true,
    transaction_type := some TxType.ret,
    transaction_reason := some "Faulty/Defective",
    current_order := some ordDelivered, current_order_id := some "ORD-1001" }

/-- A session awaiting the warranty-policy confirmation with the cached order
snapshot and order id set. -/
def ctxWarrFix : Ctx :=
  { user_data := some u0, awaiting_warranty_confirmation := some true,
    transaction_type := some TxType.warranty,
    current_order := some ordDelivered, current_order_id := some "ORD-1001" }

/-- Claim C2's two-message session: a cancellation request without an order
id, then a warranty-policy question. -/
def c2trace : List (String × Oracle) :=
  [("i want to cancel my order", { intent := "cancellation_request" }),
   ("what is your warranty policy", {})]

/-- Claim C3's five-message session: four ordinary messages, then an
affirmative reply to the escalation offer (with a collaborator that would
succeed). -/
def c3trace : List (String × Oracle) :=
  [("hello there", {}), ("hello there", {}), ("hello there", {}),
   ("hello there", {}), ("yes", { escalate_success := true })]

/-- Claim C7's three-message session: a product search that caches one
product, an unrelated message with no purchase keyword, then a colour
question. -/
def c7trace : List (String × Oracle) :=
  [("show me laptops",
    { intent := "product_inquiry", search_query := "gaming laptop",
      semMatches := [{ score := 9/10, product := some prodX }] }),
   ("thanks anyway", { search_query := "thanks" }),
   ("is it available in blue", { search_query := "blue laptop" })]

/-- The constraint dict `_parse_budget_constraints` builds for
`"around 100000"` (rate 0.60: INR bounds 48 000–72 000, JPY bounds
80 000–120 000). -/
def aroundBC100k : BudgetConstraints :=
  { min_price := some 48000, max_price := some 72000,
    constraint_type := .around, max_price_jpy := some 120000,
    min_price_jpy := 80000, target_price_jpy := 100000 }

/-- A session mid-transaction, for the main-menu witness. -/
def stMidTx : BotState :=
  { ctx := ctxConfirmFix, user_data := some u0, response_count := 3,
    escalation_offered := true, escalation_pending := false }

/-! ## Helper lemmas: the string-containment functions agree with
`List.IsPrefix`/`List.IsInfix` -/

theorem startsWithChars_iff (p l : List Char) : startsWithChars p l = true ↔ p <+: l := by
  induction p generalizing l with
  | nil => simp [startsWithChars, List.nil_prefix]
  | cons a as ih =>
    cases l with
    | nil => simp [startsWithChars, List.prefix_nil]
    | cons b bs =>
      simp [startsWithChars, List.cons_prefix_cons, ih, Bool.and_eq_true, beq_iff_eq]

theorem hasSubstrChars_iff (p l : List Char) : hasSubstrChars p l = true ↔ p <:+: l := by
  induction l with
  | nil => simp [hasSubstrChars, startsWithChars_iff, List.infix_nil, List.prefix_nil]
  | cons c cs ih =>
    simp [hasSubstrChars, startsWithChars_iff, ih, List.infix_cons_iff, Bool.or_eq_true]

theorem strContains_iff (s pat : String) :
    strContains s pat = true ↔ pat.data <:+: s.data := by
  simp [strContains, hasSubstrChars_iff]

theorem containsAny_iff (s : String) (ws : List String) :
    containsAny s ws = true ↔ ∃ w ∈ ws, w.data <:+: s.data := by
  simp [containsAny, List.any_eq_true, strContains_iff]

/-! ## Helper lemmas for the budget parser -/

theorem firstKMatch_of_no_digit (cs : List Char)
    (h : ∀ c ∈ cs, c.isDigit = false) : firstKMatch cs = none := by
  induction cs with
  | nil => rfl
  | cons c cs ih =>
    have hc : c.isDigit = false := h c (by simp)
    have hm : matchKAt (c :: cs) = none := by
      simp [matchKAt, takeDigits, hc]
    simp [firstKMatch, hm, ih (fun x hx => h x (by simp [hx]))]

theorem firstDigitRun_of_no_digit (cs : List Char)
    (h : ∀ c ∈ cs, c.isDigit = false) : firstDigitRun cs = none := by
  induction cs with
  | nil => rfl
  | cons c cs ih =>
    have hc : c.isDigit = false := h c (by simp)
    simp [firstDigitRun, hc, ih (fun x hx => h x (by simp [hx]))]

/-! ## Claim theorems -/

/-- C1: for an `around` budget ("around 100000", JPY bounds
[80 000, 120 000]), the recommendation filter KEEPS a candidate priced
¥130 000 — outside `[bound_low, bound_high]` — because the filter re-applies
the ±20 % factors to the already-±20 % bounds (`min_price_jpy * 0.8`,
`max_price_jpy * 1.2`), contradicting the code's own "allow ±20% range"
comment and the claim.  The product is returned by the full recommendation
pipeline. -/
theorem C1_around_filter_keeps_out_of_band_price :
    parse_budget_constraints "around 100000" = some aroundBC100k
    ∧ aroundBC100k.min_price_jpy = 80000
    ∧ aroundBC100k.max_price_jpy = some 120000
    ∧ prod130k.price = 130000
    ∧ budget_filter_keeps aroundBC100k prod130k.price = true
    ∧ get_product_recommendations [{ score := 9/10, product := some prod130k }]
        [] "gaming laptop" (some aroundBC100k)
      = some { products := [prod130k], count := 1, metadata_search := false }
    ∧ ¬(prod130k.price ≤ 120000) := by
  decide

/-- C8 (counterexample): the phrase `"cheap"` contains no numeric value, yet
`_parse_budget_constraints` returns the default constraint dict, not `None`. -/
theorem C8_counterexample_no_number_not_null :
    (∀ c ∈ ("cheap" : String).data, c.isDigit = false)
    ∧ parse_budget_constraints "cheap" = some defaultConstraints
    ∧ parse_budget_constraints "cheap" ≠ none := by
  decide

/-- C8 (amended): the parser returns `None` exactly for the empty (falsy)
phrase; a non-empty phrase with no digit yields the default constraint dict
(kind `around`, min 0, max +∞, target 0) rather than `None`. -/
theorem C8_amended_null_only_for_empty :
    (∀ s : String, parse_budget_constraints s = none ↔ s = "")
    ∧ (∀ s : String, s ≠ "" → (∀ c ∈ (pyLower s).data, c.isDigit = false) →
        parse_budget_constraints s = some defaultConstraints) := by
  constructor
  · intro s
    constructor
    · intro h
      by_contra hne
      rw [parse_budget_constraints, if_neg hne] at h
      revert h
      split <;> simp
    · intro h
      subst h
      rfl
  · intro s hne hnd
    rw [parse_budget_constraints, if_neg hne, budget_amount,
        firstKMatch_of_no_digit _ hnd, firstDigitRun_of_no_digit _ hnd]

/-- Witness for `C8_amended_null_only_for_empty` at the phrase `"cheap"`. -/
theorem C8_amended_null_only_for_empty_witness :
    parse_budget_constraints "" = none
    ∧ parse_budget_constraints "cheap" = some defaultConstraints :=
  ⟨(C8_amended_null_only_for_empty.1 "").2 rfl,
   C8_amended_null_only_for_empty.2 "cheap" (by decide) (by decide)⟩

/-- C6 (counterexample): at `ctxWarrFix` (awaiting the warranty-policy
confirmation with transaction type, order snapshot and order id set), the
non-affirmative reply `"no"` leaves `transaction_type`, `current_order` and
`current_order_id` in the context — the claim's "all transaction context
fields removed" is false. -/
theorem C6_counterexample_fields_survive :
    warranty_affirmative "no" = false
    ∧ (handle_warranty_confirmation ctxWarrFix "no").1.transaction_type
        = some TxType.warranty
    ∧ (handle_warranty_confirmation ctxWarrFix "no").1.current_order
        = some ordDelivered
    ∧ (handle_warranty_confirmation ctxWarrFix "no").1.current_order_id
        = some "ORD-1001"
    ∧ ¬ txContextClear (handle_warranty_confirmation ctxWarrFix "no").1 := by
  decide

/-- C6 (amended): a non-affirmative response at the warranty-policy
confirmation only sets `awaiting_warranty_confirmation` to `False` (the key
keeps value `False` rather than being removed); `transaction_type`,
`current_order`, `current_order_id`, `transaction_reason` and
`awaiting_reason` are left unchanged. -/
theorem C6_amended_only_flag_cleared (c : Ctx) (msg : String)
    (h : warranty_affirmative msg = false) :
    (handle_warranty_confirmation c msg).1.awaiting_warranty_confirmation
      = some false
    ∧ (handle_warranty_confirmation c msg).1.transaction_type = c.transaction_type
    ∧ (handle_warranty_confirmation c msg).1.current_order = c.current_order
    ∧ (handle_warranty_confirmation c msg).1.current_order_id = c.current_order_id
    ∧ (handle_warranty_confirmation c msg).1.transaction_reason = c.transaction_reason
    ∧ (handle_warranty_confirmation c msg).1.awaiting_reason = c.awaiting_reason := by
  unfold handle_warranty_confirmation gptRespond
  simp only [h, Bool.false_eq_true, if_false]
  split <;> simp

/-- Witness for `C6_amended_only_flag_cleared` at `ctxWarrFix` and `"no"`. -/
theorem C6_amended_only_flag_cleared_witness :
    warranty_affirmative "no" = false
    ∧ (handle_warranty_confirmation ctxWarrFix "no").1.awaiting_warranty_confirmation
        = some false
    ∧ (handle_warranty_confirmation ctxWarrFix "no").1.transaction_type
        = ctxWarrFix.transaction_type :=
  ⟨by decide,
   (C6_amended_only_flag_cleared ctxWarrFix "no" (by decide)).1,
   (C6_amended_only_flag_cleared ctxWarrFix "no" (by decide)).2.1⟩

/-- C9: any main-menu command short-circuits `handle_message`: the resulting
context keeps only the identity snapshot (all `awaiting_*` flags, the
transaction record and the product cache are gone), the turn counter is 0 and
both escalation flags are reset, while `self.user_data` is untouched. -/
theorem C9_main_menu_resets_everything_but_identity (st : BotState)
    (msg : String) (user : UserData) (o : Oracle)
    (h : menu_cmds.contains (pyLower msg) = true) :
    txContextClear (step st msg user o).1.ctx
    ∧ purchaseKeysClear (step st msg user o).1.ctx
    ∧ (step st msg user o).1.response_count = 0
    ∧ (step st msg user o).1.escalation_offered = false
    ∧ (step st msg user o).1.escalation_pending = false
    ∧ (step st msg user o).1.user_data = st.user_data
    ∧ (step st msg user o).1.ctx.user_data = st.user_data
    ∧ (step st msg user o).2.reset_context = true := by
  unfold step
  rw [h]
  simp [handle_main_menu, txContextClear, purchaseKeysClear]

/-- Witness for `C9_main_menu_resets_everything_but_identity`: `"menu"` sent
mid-transaction. -/
theorem C9_main_menu_resets_witness :
    menu_cmds.contains (pyLower "menu") = true
    ∧ txContextClear (step stMidTx "menu" u0 {}).1.ctx
    ∧ (step stMidTx "menu" u0 {}).1.response_count = 0
    ∧ (step stMidTx "menu" u0 {}).1.user_data = stMidTx.user_data :=
  ⟨by decide,
   (C9_main_menu_resets_everything_but_identity stMidTx "menu" u0 {} (by decide)).1,
   (C9_main_menu_resets_everything_but_identity stMidTx "menu" u0 {} (by decide)).2.2.1,
   (C9_main_menu_resets_everything_but_identity stMidTx "menu" u0 {} (by decide)).2.2.2.2.2.1⟩

/-- C10: the three affirmative detectors are substring tests over the
lowercased message (a word of the respective fixed set occurring as a
contiguous substring anywhere), so `"Yesterday …"` (containing `yes`) and
`"no, don't proceed"` (containing `proceed`) count as affirmative, and the
latter commits the pending transaction at `AWAITING_CONFIRMATION`. -/
theorem C10_affirmative_is_substring_based :
    (∀ msg : String, tx_affirmative msg = true
        ↔ ∃ w ∈ confirmation_words, w.data <:+: (pyLower msg).data)
    ∧ (∀ msg : String, warranty_affirmative msg = true
        ↔ ∃ w ∈ warranty_positive_responses, w.data <:+: (pyLower msg).data)
    ∧ (∀ msg : String, escalation_affirmative msg = true
        ↔ ∃ w ∈ escalation_affirm_words, w.data <:+: (pyLower msg).data)
    ∧ tx_affirmative "Yesterday was fine" = true
    ∧ warranty_affirmative "yesterday" = true
    ∧ escalation_affirmative "yesterday" = true
    ∧ tx_affirmative "no, don't proceed" = true
    ∧ (handle_transaction_confirmation ctxConfirmFix "no, don't proceed"
         "1f2a3b4c-5d6e").2.committed = some (TxType.ret, "REF-1F2A3B4C")
    ∧ (handle_warranty_confirmation ctxWarrFix "yesterday").1.awaiting_reason
        = some true := by
  refine ⟨fun msg => ?_, fun msg => ?_, fun msg => ?_, ?_, ?_, ?_, ?_, ?_, ?_⟩
  · exact containsAny_iff (pyLower msg) confirmation_words
  · exact containsAny_iff (pyLower msg) warranty_positive_responses
  · exact containsAny_iff (pyLower msg) escalation_affirm_words
  · decide
  · decide
  · decide
  · decide
  · decide
  · decide

/-- C5: `_handle_transaction_intent` with a known order id gates on the
fetched order's status: cancellation of a delivered order is rejected with
the return-suggestion message, return and warranty on a non-delivered order
are rejected with a message naming the status; in each case the context only
records the transaction type and order snapshot — no `awaiting_*` flag is
set, so the workflow does not advance. -/
theorem C5_status_gating (c : Ctx) (ents : Entities) (o : Oracle)
    (oid : String) (od : Order)
    (hid : ents.order_id = some oid) (hne : oid ≠ "")
    (hord : o.getOrder oid = some od) :
    (pyLower od.status = "delivered" →
       handle_transaction_intent c "cancellation_request" ents o
         = ({ c with transaction_type := some TxType.cancellation,
                     current_order := some od, current_order_id := some oid },
            { handledBy := .txIntent,
              message := some cancellation_delivered_msg }))
    ∧ (pyLower od.status ≠ "delivered" →
       handle_transaction_intent c "return_request" ents o
         = ({ c with transaction_type := some TxType.ret,
                     current_order := some od, current_order_id := some oid },
            { handledBy := .txIntent,
              message := some (return_wrong_status_msg (pyLower od.status)) }))
    ∧ (pyLower od.status ≠ "delivered" →
       handle_transaction_intent c "warranty_claim" ents o
         = ({ c with transaction_type := some TxType.warranty,
                     current_order := some od, current_order_id := some oid },
            { handledBy := .txIntent,
              message := some (warranty_wrong_status_msg (pyLower od.status)) })) := by
  refine ⟨fun hst => ?_, fun hst => ?_, fun hst => ?_⟩ <;>
    simp [handle_transaction_intent, hid, hne, hord, intent_to_txtype,
          truthyStr, hst]

/-- Witness for `C5_status_gating`: cancellation of the delivered `ORD-1001`
and return/warranty on the merely confirmed `ORD-1005`. -/
theorem C5_status_gating_witness :
    (handle_transaction_intent { user_data := some u0 } "cancellation_request"
        { order_id := some "ORD-1001" } { getOrder := sampleStore }).2.message
      = some cancellation_delivered_msg
    ∧ (handle_transaction_intent { user_data := some u0 } "return_request"
        { order_id := some "ORD-1005" } { getOrder := sampleStore }).2.message
      = some (return_wrong_status_msg "confirmed")
    ∧ (handle_transaction_intent { user_data := some u0 } "warranty_claim"
        { order_id := some "ORD-1005" } { getOrder := sampleStore }).2.message
      = some (warranty_wrong_status_msg "confirmed") := by
  refine ⟨?_, ?_, ?_⟩
  · rw [(C5_status_gating { user_data := some u0 } { order_id := some "ORD-1001" }
        { getOrder := sampleStore } "ORD-1001" ordDelivered rfl (by decide)
        (by decide)).1 (by decide)]
  · rw [(C5_status_gating { user_data := some u0 } { order_id := some "ORD-1005" }
        { getOrder := sampleStore } "ORD-1005" ordConfirmed rfl (by decide)
        (by decide)).2.1 (by decide)]
    decide
  · rw [(C5_status_gating { user_data := some u0 } { order_id := some "ORD-1005" }
        { getOrder := sampleStore } "ORD-1005" ordConfirmed rfl (by decide)
        (by decide)).2.2 (by decide)]
    decide

/-! ## Effect lemmas about the handlers (used by the step-level theorems) -/

theorem gptRespond_resp (t : Handler) (c : Ctx) :
    (gptRespond t c).2 = { handledBy := t } := rfl

theorem gptRespond_flags (t : Handler) (c : Ctx) :
    (gptRespond t c).1.awaiting_confirmation = c.awaiting_confirmation
    ∧ (gptRespond t c).1.awaiting_reason = c.awaiting_reason
    ∧ (gptRespond t c).1.awaiting_order_id = c.awaiting_order_id
    ∧ (gptRespond t c).1.awaiting_warranty_confirmation
        = c.awaiting_warranty_confirmation := by
  unfold gptRespond
  split <;> simp

theorem gptRespond_waitCount (t : Handler) (c : Ctx) :
    ctxWaitCount (gptRespond t c).1 = ctxWaitCount c := by
  have h := gptRespond_flags t c
  simp [ctxWaitCount, h.1, h.2.1, h.2.2.1, h.2.2.2]

theorem gptRespond_pkeys (t : Handler) (c : Ctx) (h : purchaseKeysClear c) :
    purchaseKeysClear (gptRespond t c).1 := by
  unfold purchaseKeysClear at h ⊢
  unfold gptRespond
  split <;> simp_all

theorem purchase_flow_committed (c : Ctx) (e : Entities) (o : Oracle) :
    (handle_purchase_flow c e o).2.committed = none := by
  unfold handle_purchase_flow
  dsimp only []
  repeat' split
  all_goals rfl

theorem tracking_committed (c : Ctx) (oid : String) (o : Oracle) :
    (handle_tracking_request c oid o).2.committed = none := by
  unfold handle_tracking_request
  repeat' split
  all_goals rfl

theorem tx_intent_committed (c : Ctx) (i : String) (e : Entities) (o : Oracle) :
    (handle_transaction_intent c i e o).2.committed = none := by
  unfold handle_transaction_intent show_order_and_ask_for_reason gptRespond
  dsimp only []
  repeat' split
  all_goals rfl

theorem order_id_committed (c : Ctx) (m : String) (e : Entities) (o : Oracle) :
    (handle_order_id_response c m e o).2.committed = none := by
  unfold handle_order_id_response gptRespond
  dsimp only []
  repeat' split
  all_goals rfl

theorem reason_committed (c : Ctx) (m : String) (e : Entities) :
    (handle_reason_response c m e).2.committed = none := by
  unfold handle_reason_response gptRespond
  dsimp only []
  repeat' split
  all_goals rfl

theorem warrconf_committed (c : Ctx) (m : String) :
    (handle_warranty_confirmation c m).2.committed = none := by
  unfold handle_warranty_confirmation gptRespond
  dsimp only []
  repeat' split
  all_goals rfl

theorem order_status_byId_committed (c : Ctx) (e : Entities) (o : Oracle) :
    (handle_order_status_byId c e o).2.committed = none := by
  unfold handle_order_status_byId gptRespond
  repeat' split
  all_goals rfl

theorem order_status_tail_committed (c : Ctx) (m : String) (e : Entities)
    (o : Oracle) :
    (handle_order_status_tail c m e o).2.committed = none := by
  unfold handle_order_status_tail
  repeat' split
  all_goals simp [tracking_committed, order_status_byId_committed]

theorem order_status_committed (c : Ctx) (m : String) (e : Entities)
    (o : Oracle) :
    (handle_order_status c m e o).2.committed = none := by
  unfold handle_order_status
  dsimp only []
  repeat' split
  all_goals simp [tracking_committed, tx_intent_committed,
    order_status_tail_committed]

theorem context_switching_committed (c : Ctx) (m : String) (o : Oracle)
    (res : Ctx × Resp) (h : handle_context_switching c m o = some res) :
    res.2.committed = none := by
  unfold handle_context_switching handle_warranty_policy_inquiry at h
  dsimp only [] at h
  revert h
  repeat' split
  all_goals intro h
  all_goals cases h
  all_goals first
    | rfl
    | simp [tx_intent_committed]

theorem escalation_response_committed (st : BotState) (m : String) (o : Oracle) :
    (handle_escalation_response st m o).2.committed = none := by
  unfold handle_escalation_response
  dsimp only []
  repeat' split
  all_goals rfl

theorem routeDispatch_committed (c : Ctx) (msg intent : String) (ents : Entities)
    (o : Oracle) (h : truthy c.awaiting_confirmation = false) :
    (routeDispatch c msg intent ents o).2.committed = none := by
  unfold routeDispatch
  dsimp only []
  repeat' split
  all_goals simp_all [purchase_flow_committed, tx_intent_committed,
    order_id_committed, reason_committed, warrconf_committed,
    order_status_committed, gptRespond_resp]

theorem routeBody_committed (c : Ctx) (msg : String) (o : Oracle)
    (h : truthy c.awaiting_confirmation = false) :
    (routeBody c msg o).2.committed = none := by
  unfold routeBody
  dsimp only []
  repeat' split
  · rfl
  · rename_i res hsw
    exact context_switching_committed _ _ _ _ hsw
  · rfl
  all_goals apply routeDispatch_committed
  all_goals simp_all [truthy]

theorem step_committed (st : BotState) (msg : String) (user : UserData)
    (o : Oracle) (h : truthy st.ctx.awaiting_confirmation = false) :
    (step st msg user o).2.committed = none := by
  unfold step refresh_user handle_main_menu offer_escalation
  dsimp only []
  repeat' split
  all_goals first
    | rfl
    | exact escalation_response_committed _ _ _
    | (apply routeBody_committed; simp_all [truthy])

/-- C4: at `AWAITING_CONFIRMATION` with an active transaction (type, order
snapshot and non-empty reason present), an affirmative token anywhere in the
message commits with id `CXL-`/`REF-`/`WAR-` plus the first 8 characters of
the uuid upper-cased (8-character token whenever the uuid has ≥ 8
characters); a message with no affirmative token cancels with no commit;
both outcomes clear every transaction context field; and a message handled
while `awaiting_confirmation` is not truthy can never produce a commit. -/
theorem C4_confirmation_commit_cancel_reset :
    (∀ (c : Ctx) (msg uuid : String) (tt : TxType) (od : Order) (r : String),
       c.transaction_type = some tt → c.current_order = some od →
       c.transaction_reason = some r → r ≠ "" →
       (tx_affirmative msg = true →
          handle_transaction_confirmation c msg uuid
            = (reset_transaction_context c,
               { handledBy := .txConfirmation,
                 committed := some (tt, txPrefix tt ++ "-"
                   ++ pyUpper (strTake uuid 8)) }))
       ∧ (tx_affirmative msg = false →
            txContextClear (handle_transaction_confirmation c msg uuid).1
            ∧ (handle_transaction_confirmation c msg uuid).2.committed = none))
    ∧ (∀ c : Ctx, txContextClear (reset_transaction_context c))
    ∧ (∀ (tt : TxType) (uuid : String), 8 ≤ uuid.data.length →
         (generate_transaction_id (txPrefix tt) uuid).data.length = 12
         ∧ (pyUpper (strTake uuid 8)).data.length = 8)
    ∧ (∀ (st : BotState) (msg : String) (user : UserData) (o : Oracle),
         truthy st.ctx.awaiting_confirmation = false →
         (step st msg user o).2.committed = none) := by
  refine ⟨?_, ?_, ?_, step_committed⟩
  · intro c msg uuid tt od r htt hod hr hne
    constructor
    · intro haff
      unfold handle_transaction_confirmation generate_transaction_id
      simp [htt, hod, hr, hne, haff, truthyStr]
    · intro haff
      unfold handle_transaction_confirmation
      simp only [htt, hod, hr, haff, truthyStr, Bool.false_eq_true, if_false]
      constructor
      · have hclr : txContextClear (reset_transaction_context c) := by
          unfold txContextClear reset_transaction_context
          simp
        simp only [hne, Option.isSome_some, Bool.not_true, Bool.false_or,
          Bool.or_false]
        split <;>
          first
            | exact hclr
            | · have hg := gptRespond_flags .txConfirmation
                  (reset_transaction_context c)
                unfold txContextClear at hclr ⊢
                unfold gptRespond reset_transaction_context at *
                split <;> simp_all
      · split <;> rfl
  · intro c
    unfold txContextClear reset_transaction_context
    simp
  · intro tt uuid hlen
    unfold generate_transaction_id pyUpper strTake
    cases tt <;>
      simp [String.data_append, txPrefix, List.length_take, hlen,
        Nat.min_eq_left hlen] <;>
      exact hlen

/-- Witness for `C4_confirmation_commit_cancel_reset`: the return at
`ctxConfirmFix` committed by "yes please" and cancelled by "nope". -/
theorem C4_confirmation_witness :
    handle_transaction_confirmation ctxConfirmFix "yes please" "1f2a3b4c-5d6e"
      = (reset_transaction_context ctxConfirmFix,
         { handledBy := .txConfirmation,
           committed := some (TxType.ret, txPrefix TxType.ret ++ "-"
             ++ pyUpper (strTake "1f2a3b4c-5d6e" 8)) })
    ∧ txContextClear
        (handle_transaction_confirmation ctxConfirmFix "nope" "1f2a3b4c-5d6e").1
    ∧ (handle_transaction_confirmation ctxConfirmFix "nope"
        "1f2a3b4c-5d6e").2.committed = none
    ∧ (generate_transaction_id (txPrefix TxType.ret)
        "1f2a3b4c-5d6e").data.length = 12 :=
  ⟨(C4_confirmation_commit_cancel_reset.1 ctxConfirmFix "yes please"
      "1f2a3b4c-5d6e" TxType.ret ordDelivered "Faulty/Defective" rfl rfl rfl
      (by decide)).1 (by decide),
   ((C4_confirmation_commit_cancel_reset.1 ctxConfirmFix "nope"
      "1f2a3b4c-5d6e" TxType.ret ordDelivered "Faulty/Defective" rfl rfl rfl
      (by decide)).2 (by decide)).1,
   ((C4_confirmation_commit_cancel_reset.1 ctxConfirmFix "nope"
      "1f2a3b4c-5d6e" TxType.ret ordDelivered "Faulty/Defective" rfl rfl rfl
      (by decide)).2 (by decide)).2,
   (C4_confirmation_commit_cancel_reset.2.2.1 TxType.ret "1f2a3b4c-5d6e"
      (by decide)).1⟩

/-- Method `handle_message` can never leave `escalation_pending` set: nothing in the
code ever assigns it `True` (`_offer_escalation` only sets
`escalation_offered`), and every path through a message either keeps it
`False` or resets it. -/
theorem step_escalation_pending_false (st : BotState) (msg : String)
    (user : UserData) (o : Oracle) :
    (step st msg user o).1.escalation_pending = false := by
  unfold step refresh_user handle_main_menu offer_escalation handle_escalation_response
  dsimp only []
  repeat' split
  all_goals simp_all

/-- C3: in the five-message session `c3trace`, the escalation offer is
produced exactly once (on the 4th message), but the affirmative reply
`"yes"` that follows — with an escalation collaborator that would succeed —
is routed through normal GPT handling with `escalated = false`:
`escalation_pending` can never become true (see
`step_escalation_pending_false`), so `_handle_escalation_response` is
unreachable and the offer's accept/decline step never happens. -/
theorem C3_offer_once_but_accept_never_interpreted :
    (∀ (st : BotState) (msg : String) (user : UserData) (o : Oracle),
       (step st msg user o).1.escalation_pending = false)
    ∧ ((runAll u0 (initState u0) c3trace).2.map
         (fun r => (r.handledBy, r.escalated))
       = [(.gpt, false), (.gpt, false), (.gpt, false),
          (.escalationOffer, false), (.gpt, false)])
    ∧ (runAll u0 (initState u0) c3trace).1.escalation_offered = true
    ∧ escalation_affirmative "yes" = true := by
  refine ⟨step_escalation_pending_false, ?_, ?_, ?_⟩ <;> decide

/-! ## Waiting-flag effect lemmas (for the mutual-exclusion analysis) -/

theorem truthy_some (b : Bool) : truthy (some b) = b := rfl

theorem truthy_none : truthy none = false := rfl

theorem b2n_false : b2n false = 0 := rfl

theorem b2n_true : b2n true = 1 := rfl

theorem b2n_le_one (b : Bool) : b2n b ≤ 1 := by cases b <;> simp [b2n]

theorem reset_waitCount (c : Ctx) :
    ctxWaitCount (reset_transaction_context c) = 0 := rfl

theorem purchase_flow_flags (c : Ctx) (e : Entities) (o : Oracle) :
    (handle_purchase_flow c e o).1.awaiting_confirmation = c.awaiting_confirmation
    ∧ (handle_purchase_flow c e o).1.awaiting_reason = c.awaiting_reason
    ∧ (handle_purchase_flow c e o).1.awaiting_order_id = c.awaiting_order_id
    ∧ (handle_purchase_flow c e o).1.awaiting_warranty_confirmation
        = c.awaiting_warranty_confirmation := by
  unfold handle_purchase_flow
  dsimp only []
  repeat' split
  all_goals simp

theorem purchase_flow_waitCount (c : Ctx) (e : Entities) (o : Oracle) :
    ctxWaitCount (handle_purchase_flow c e o).1 = ctxWaitCount c := by
  have h := purchase_flow_flags c e o
  simp [ctxWaitCount, h.1, h.2.1, h.2.2.1, h.2.2.2]

theorem confirmation_waitCount (c : Ctx) (m u : String) :
    ctxWaitCount (handle_transaction_confirmation c m u).1 ≤ ctxWaitCount c := by
  unfold handle_transaction_confirmation
  try dsimp only []
  repeat' split
  all_goals
    simp [gptRespond_waitCount, reset_waitCount, Nat.zero_le, Nat.le_refl]

theorem reason_waitCount (c : Ctx) (m : String) (e : Entities)
    (h1 : truthy c.awaiting_confirmation = false)
    (h3 : truthy c.awaiting_order_id = false)
    (h4 : truthy c.awaiting_warranty_confirmation = false) :
    ctxWaitCount (handle_reason_response c m e).1 ≤ 1 := by
  unfold handle_reason_response
  try dsimp only []
  repeat' split
  all_goals
    first
      | (rw [gptRespond_waitCount]
         simp [ctxWaitCount, truthy_some, truthy_none, b2n_false, b2n_true,
           b2n_le_one, h1, h3, h4])
      | simp [ctxWaitCount, truthy_some, truthy_none, b2n_false, b2n_true,
          b2n_le_one, h1, h3, h4]

theorem order_id_waitCount (c : Ctx) (m : String) (e : Entities) (o : Oracle)
    (h1 : truthy c.awaiting_confirmation = false)
    (h2 : truthy c.awaiting_reason = false)
    (h4 : truthy c.awaiting_warranty_confirmation = false) :
    ctxWaitCount (handle_order_id_response c m e o).1 ≤ 1 := by
  unfold handle_order_id_response gptRespond
  try dsimp only []
  repeat' split
  all_goals
    simp [ctxWaitCount, truthy_some, truthy_none, b2n_false, b2n_true,
      b2n_le_one, h1, h2, h4]

theorem warrconf_waitCount (c : Ctx) (m : String)
    (h1 : truthy c.awaiting_confirmation = false)
    (h2 : truthy c.awaiting_reason = false)
    (h3 : truthy c.awaiting_order_id = false) :
    ctxWaitCount (handle_warranty_confirmation c m).1 ≤ 1 := by
  unfold handle_warranty_confirmation gptRespond
  try dsimp only []
  repeat' split
  all_goals
    simp [ctxWaitCount, truthy_some, truthy_none, b2n_false, b2n_true,
      b2n_le_one, h1, h2, h3]

theorem tx_intent_waitCount (c : Ctx) (i : String) (e : Entities) (o : Oracle)
    (h : ctxWaitClear c) :
    ctxWaitCount (handle_transaction_intent c i e o).1 ≤ 1 := by
  obtain ⟨h1, h2, h3, h4⟩ := h
  unfold handle_transaction_intent show_order_and_ask_for_reason gptRespond
  try dsimp only []
  repeat' split
  all_goals
    simp [ctxWaitCount, truthy_some, truthy_none, b2n_false, b2n_true,
      b2n_le_one, h1, h2, h3, h4]

theorem tracking_waitCount (c : Ctx) (oid : String) (o : Oracle) :
    ctxWaitCount (handle_tracking_request c oid o).1 = ctxWaitCount c := by
  unfold handle_tracking_request
  repeat' split
  all_goals simp [gptRespond_waitCount]

theorem order_status_byId_waitCount (c : Ctx) (e : Entities) (o : Oracle) :
    ctxWaitCount (handle_order_status_byId c e o).1 = ctxWaitCount c := by
  unfold handle_order_status_byId
  repeat' split
  all_goals simp [gptRespond_waitCount]

theorem order_status_tail_waitCount (c : Ctx) (m : String) (e : Entities)
    (o : Oracle) :
    ctxWaitCount (handle_order_status_tail c m e o).1 = ctxWaitCount c := by
  unfold handle_order_status_tail
  repeat' split
  all_goals simp [tracking_waitCount, order_status_byId_waitCount]

theorem waitCount_le_one_of_clear (c : Ctx) (h : ctxWaitClear c) :
    ctxWaitCount c ≤ 1 := by
  simp [ctxWaitCount, h.1, h.2.1, h.2.2.1, h.2.2.2, b2n_false]

theorem order_status_waitCount (c : Ctx) (m : String) (e : Entities)
    (o : Oracle) (h : ctxWaitClear c) :
    ctxWaitCount (handle_order_status c m e o).1 ≤ 1 := by
  unfold handle_order_status
  try dsimp only []
  split
  · split
    · split
      · rw [tracking_waitCount]
        exact waitCount_le_one_of_clear c h
      · split
        · exact tx_intent_waitCount _ _ _ _ h
        · split
          · exact tx_intent_waitCount _ _ _ _ h
          · exact tx_intent_waitCount _ _ _ _ h
    · rw [order_status_tail_waitCount]
      exact waitCount_le_one_of_clear c h
  · rw [order_status_tail_waitCount]
    exact waitCount_le_one_of_clear c h

theorem context_switching_fired (c : Ctx) (m : String) (o : Oracle)
    (res : Ctx × Resp) (h : handle_context_switching c m o = some res) :
    is_warranty_policy_inquiry m = true
    ∨ containsAny (pyLower m) warranty_queries = true := by
  unfold handle_context_switching at h
  revert h
  split
  · intro _
    left
    assumption
  · split
    · intro _
      right
      assumption
    · intro h
      cases h

theorem context_switching_waitCount (c : Ctx) (m : String) (o : Oracle)
    (res : Ctx × Resp) (h : handle_context_switching c m o = some res)
    (hclear : ctxWaitClear c) :
    ctxWaitCount res.1 ≤ 1 := by
  obtain ⟨h1, h2, h3, h4⟩ := hclear
  unfold handle_context_switching at h
  revert h
  split
  · intro h
    cases h
    unfold handle_warranty_policy_inquiry
    simp [ctxWaitCount, truthy_some, truthy_none, b2n_false, b2n_true,
      h1, h2, h3]
  · split
    · intro h
      revert h
      split
      · intro h
        cases h
        exact tx_intent_waitCount _ _ _ _ ⟨h1, h2, h3, h4⟩
      · intro h
        cases h
        rw [gptRespond_waitCount]
        simp [ctxWaitCount, truthy_some, truthy_none, b2n_false, b2n_true,
          h1, h2, h4]
    · intro h
      cases h

theorem flags_elim (c : Ctx) (h : ctxWaitCount c ≤ 1) :
    (truthy c.awaiting_confirmation = true →
       truthy c.awaiting_reason = false ∧ truthy c.awaiting_order_id = false
       ∧ truthy c.awaiting_warranty_confirmation = false)
    ∧ (truthy c.awaiting_reason = true →
       truthy c.awaiting_confirmation = false
       ∧ truthy c.awaiting_order_id = false
       ∧ truthy c.awaiting_warranty_confirmation = false)
    ∧ (truthy c.awaiting_order_id = true →
       truthy c.awaiting_confirmation = false
       ∧ truthy c.awaiting_reason = false
       ∧ truthy c.awaiting_warranty_confirmation = false) := by
  unfold ctxWaitCount b2n at h
  cases hA : truthy c.awaiting_confirmation <;>
  cases hB : truthy c.awaiting_reason <;>
  cases hC : truthy c.awaiting_order_id <;>
  cases hD : truthy c.awaiting_warranty_confirmation <;>
    simp_all

theorem routeDispatch_waitCount (c : Ctx) (msg intent : String)
    (ents : Entities) (o : Oracle) (hInv : ctxWaitCount c ≤ 1) :
    ctxWaitCount (routeDispatch c msg intent ents o).1 ≤ 1 := by
  have hE := flags_elim c hInv
  unfold routeDispatch
  try dsimp only []
  split
  · split
    · exact hInv
    · rw [gptRespond_waitCount]
      exact hInv
  · split
    · exact hInv
    · split
      · rw [purchase_flow_waitCount]
        exact hInv
      · split
        · exact le_trans (confirmation_waitCount _ _ _) hInv
        · split
          · rename_i hg
            exact reason_waitCount _ _ _ (hE.2.1 hg).1 (hE.2.1 hg).2.1
              (hE.2.1 hg).2.2
          · split
            · rename_i hg
              exact order_id_waitCount _ _ _ _ (hE.2.2 hg).1
                (hE.2.2 hg).2.1 (hE.2.2 hg).2.2
            · split
              · rename_i g1 g2 g3 hw
                exact warrconf_waitCount _ _ (by simpa using g1)
                  (by simpa using g2) (by simpa using g3)
              · split
                · rename_i g1 g2 g3 g4 gi
                  exact tx_intent_waitCount _ _ _ _
                    ⟨by simpa using g1, by simpa using g2,
                     by simpa using g3, by simpa using g4⟩
                · split
                  · rename_i g1 g2 g3 g4 gi go
                    exact order_status_waitCount _ _ _ _
                      ⟨by simpa using g1, by simpa using g2,
                       by simpa using g3, by simpa using g4⟩
                  · rw [gptRespond_waitCount]
                    exact hInv

theorem refresh_user_waitCount (st : BotState) (user : UserData) :
    ctxWaitCount (refresh_user st user).ctx = ctxWaitCount st.ctx := by
  unfold refresh_user ctxWaitCount
  split <;> simp

theorem refresh_user_clear (st : BotState) (user : UserData) :
    ctxWaitClear (refresh_user st user).ctx ↔ ctxWaitClear st.ctx := by
  unfold refresh_user ctxWaitClear
  split <;> simp

theorem escalation_response_waitCount (st : BotState) (m : String)
    (o : Oracle) :
    waitCount (handle_escalation_response st m o).1 = ctxWaitCount st.ctx := by
  unfold handle_escalation_response waitCount
  try dsimp only []
  repeat' split
  all_goals simp [gptRespond_waitCount, b2n_false]

theorem routeBody_waitCount (c : Ctx) (msg : String) (o : Oracle)
    (hInv : ctxWaitCount c ≤ 1)
    (hSafe : is_warranty_policy_inquiry msg = true
             ∨ containsAny (pyLower msg) warranty_queries = true →
             ctxWaitClear c) :
    ctxWaitCount (routeBody c msg o).1 ≤ 1 := by
  unfold routeBody
  try dsimp only []
  split
  · rename_i hp
    have hc := hSafe (Or.inl hp)
    unfold handle_warranty_policy_inquiry
    simp [ctxWaitCount, truthy_some, truthy_none, b2n_false, b2n_true,
      hc.1, hc.2.1, hc.2.2.1]
  · split
    · rename_i res hsw
      exact context_switching_waitCount _ _ _ _ hsw
        (hSafe (context_switching_fired _ _ _ _ hsw))
    · split
      · rw [gptRespond_waitCount]
        exact hInv
      · apply routeDispatch_waitCount
        repeat' split
        all_goals simpa [ctxWaitCount] using hInv

/-- C2 (counterexample): in `c2trace` a cancellation request leaves
`awaiting_order_id` set, and a following warranty-policy question sets
`awaiting_warranty_confirmation` without clearing it — two of the
"mutually exclusive" waiting flags are true at once in a reachable state. -/
theorem C2_counterexample_two_flags_set :
    truthy (runAll u0 (initState u0) c2trace).1.ctx.awaiting_order_id = true
    ∧ truthy (runAll u0 (initState u0)
        c2trace).1.ctx.awaiting_warranty_confirmation = true
    ∧ ¬ waitCount (runAll u0 (initState u0) c2trace).1 ≤ 1 := by
  decide

/-- C2 (amended): one handled message preserves "at most one of the five
waiting flags is true", PROVIDED the message does not take the
warranty-policy-inquiry or warranty-claim context-switch path while a
waiting flag is already set (those two paths run before the waiting-state
dispatch and stack `awaiting_warranty_confirmation` / `awaiting_order_id`
on top of the existing flag — the counterexample above). -/
theorem C2_amended_exclusion_with_proviso :
    (∀ u : UserData, waitCount (initState u) ≤ 1)
    ∧ ∀ (st : BotState) (msg : String) (user : UserData) (o : Oracle),
        waitCount st ≤ 1 →
        (is_warranty_policy_inquiry msg = true
         ∨ containsAny (pyLower msg) warranty_queries = true →
         ctxWaitClear st.ctx) →
        waitCount (step st msg user o).1 ≤ 1 := by
  constructor
  · intro u
    simp [initState, waitCount, ctxWaitCount, truthy_none, b2n_false]
  intro st msg user o hInv hSafe
  unfold step
  try dsimp only []
  split
  · unfold handle_main_menu
    simp [waitCount, ctxWaitCount, truthy_none, b2n_false, b2n_true]
  · split
    · rw [escalation_response_waitCount, refresh_user_waitCount]
      exact le_trans (Nat.le_add_right _ _) hInv
    · split
      · unfold offer_escalation
        simp only [waitCount]
        rw [show ({ refresh_user st user with
              response_count := (refresh_user st user).response_count + 1,
              escalation_offered := true } : BotState).ctx
            = (refresh_user st user).ctx from rfl]
        rw [refresh_user_waitCount]
        exact hInv
      · rename_i hpend hoff
        simp only [waitCount]
        have hp0 : st.escalation_pending = false := by
          simpa [refresh_user] using hpend
        have hb := routeBody_waitCount (refresh_user st user).ctx msg o
          (by rw [refresh_user_waitCount]
              exact le_trans (Nat.le_add_right _ _) hInv)
          (fun hx => (refresh_user_clear st user).2 (hSafe hx))
        simpa [refresh_user, hp0, b2n_false] using hb

/-- Witness for `C2_amended_exclusion_with_proviso`: a benign message at a
state with only `awaiting_order_id` set. -/
theorem C2_amended_exclusion_witness :
    waitCount { ctx := { user_data := some u0,
                         awaiting_order_id := some true,
                         transaction_type := some TxType.cancellation },
                user_data := some u0, response_count := 1 } ≤ 1
    ∧ waitCount (step { ctx := { user_data := some u0,
                                 awaiting_order_id := some true,
                                 transaction_type := some TxType.cancellation },
                        user_data := some u0, response_count := 1 }
        "ORD-1001" u0 { getOrder := sampleStore }).1 ≤ 1 :=
  ⟨by decide,
   C2_amended_exclusion_with_proviso.2 _ "ORD-1001" u0 { getOrder := sampleStore }
     (by decide) (by intro hx; exact absurd hx (by decide))⟩

/-! ## Purchase-context-key effect lemmas (for the context-bleed analysis) -/

theorem confirmation_pkeys (c : Ctx) (m u : String) (h : purchaseKeysClear c) :
    purchaseKeysClear (handle_transaction_confirmation c m u).1 := by
  unfold purchaseKeysClear at h ⊢
  unfold handle_transaction_confirmation reset_transaction_context gptRespond
  try dsimp only []
  repeat' split
  all_goals simp_all

theorem reason_pkeys (c : Ctx) (m : String) (e : Entities)
    (h : purchaseKeysClear c) :
    purchaseKeysClear (handle_reason_response c m e).1 := by
  unfold purchaseKeysClear at h ⊢
  unfold handle_reason_response gptRespond
  try dsimp only []
  repeat' split
  all_goals simp_all

theorem order_id_pkeys (c : Ctx) (m : String) (e : Entities) (o : Oracle)
    (h : purchaseKeysClear c) :
    purchaseKeysClear (handle_order_id_response c m e o).1 := by
  unfold purchaseKeysClear at h ⊢
  unfold handle_order_id_response gptRespond
  try dsimp only []
  repeat' split
  all_goals simp_all

theorem warrconf_pkeys (c : Ctx) (m : String) (h : purchaseKeysClear c) :
    purchaseKeysClear (handle_warranty_confirmation c m).1 := by
  unfold purchaseKeysClear at h ⊢
  unfold handle_warranty_confirmation gptRespond
  try dsimp only []
  repeat' split
  all_goals simp_all

set_option maxHeartbeats 1000000 in
theorem tx_intent_pkeys (c : Ctx) (i : String) (e : Entities) (o : Oracle)
    (h : purchaseKeysClear c) :
    purchaseKeysClear (handle_transaction_intent c i e o).1 := by
  unfold purchaseKeysClear at h ⊢
  unfold handle_transaction_intent show_order_and_ask_for_reason gptRespond
  try dsimp only []
  repeat' split
  all_goals simp_all

theorem tracking_pkeys (c : Ctx) (oid : String) (o : Oracle)
    (h : purchaseKeysClear c) :
    purchaseKeysClear (handle_tracking_request c oid o).1 := by
  unfold purchaseKeysClear at h ⊢
  unfold handle_tracking_request gptRespond
  repeat' split
  all_goals simp_all

theorem order_status_byId_pkeys (c : Ctx) (e : Entities) (o : Oracle)
    (h : purchaseKeysClear c) :
    purchaseKeysClear (handle_order_status_byId c e o).1 := by
  unfold purchaseKeysClear at h ⊢
  unfold handle_order_status_byId gptRespond
  repeat' split
  all_goals simp_all

theorem order_status_tail_pkeys (c : Ctx) (m : String) (e : Entities)
    (o : Oracle) (h : purchaseKeysClear c) :
    purchaseKeysClear (handle_order_status_tail c m e o).1 := by
  unfold handle_order_status_tail
  repeat' split
  all_goals
    first
      | exact tracking_pkeys _ _ _ h
      | exact order_status_byId_pkeys _ _ _ h

theorem order_status_pkeys (c : Ctx) (m : String) (e : Entities) (o : Oracle)
    (h : purchaseKeysClear c) :
    purchaseKeysClear (handle_order_status c m e o).1 := by
  unfold handle_order_status
  try dsimp only []
  split
  · split
    · split
      · exact tracking_pkeys _ _ _ h
      · split
        · exact tx_intent_pkeys _ _ _ _ h
        · split
          · exact tx_intent_pkeys _ _ _ _ h
          · exact tx_intent_pkeys _ _ _ _ h
    · exact order_status_tail_pkeys _ _ _ _ h
  · exact order_status_tail_pkeys _ _ _ _ h

theorem context_switching_none (c : Ctx) (msg : String) (o : Oracle)
    (h1 : is_warranty_policy_inquiry msg = false)
    (h2 : containsAny (pyLower msg) warranty_queries = false) :
    handle_context_switching c msg o = none := by
  unfold handle_context_switching
  simp [h1, h2]

theorem comparison_kws_false_of_not_gpt_direct (msg : String)
    (h : should_use_gpt_directly msg = false) :
    containsAny (pyLower msg) comparison_kws = false := by
  unfold should_use_gpt_directly at h
  simp only [Bool.or_eq_false_iff] at h
  have h2 := h.1.1.2
  unfold containsAny gpt_comparison_kws at h2
  unfold containsAny comparison_kws
  simp only [List.any_cons, List.any_nil, Bool.or_eq_false_iff] at h2 ⊢
  exact ⟨h2.1, h2.2.1, h2.2.2.1, h2.2.2.2.1, h2.2.2.2.2.1, trivial⟩

theorem purchase_flow_handledBy (c : Ctx) (e : Entities) (o : Oracle) :
    (handle_purchase_flow c e o).2.handledBy = Handler.purchaseFlow
    ∨ (handle_purchase_flow c e o).2.handledBy = Handler.noProducts := by
  unfold handle_purchase_flow
  try dsimp only []
  repeat' split
  all_goals simp

theorem routeDispatch_pkeys (c : Ctx) (msg intent : String) (ents : Entities)
    (o : Oracle) (h : purchaseKeysClear c)
    (hi : intent ≠ "product_inquiry")
    (h5 : containsAny (pyLower msg) purchase_kws = false) :
    purchaseKeysClear (routeDispatch c msg intent ents o).1 := by
  unfold routeDispatch
  try dsimp only []
  split
  · split
    · exact h
    · exact gptRespond_pkeys _ _ h
  · split
    · exact h
    · split
      · rename_i hp
        exfalso
        rw [h.2.2] at hp
        simp [hi, h5, truthy_none] at hp
      · split
        · exact confirmation_pkeys _ _ _ h
        · split
          · exact reason_pkeys _ _ _ h
          · split
            · exact order_id_pkeys _ _ _ _ h
            · split
              · exact warrconf_pkeys _ _ h
              · split
                · exact tx_intent_pkeys _ _ _ _ h
                · split
                  · exact order_status_pkeys _ _ _ _ h
                  · exact gptRespond_pkeys _ _ h

/-- C7 (counterexample): `c7trace` — a product search (one cached product),
then the unrelated no-purchase-keyword message "thanks anyway", then a
colour question.  The unrelated message does NOT clear the cache (because
`in_purchase_flow` is set, it is routed to the purchase flow instead), and
the colour question is answered by the colour-inquiry shortcut over the
stale cache, not as a fresh Product Finder request. -/
theorem C7_counterexample_cache_survives :
    ((runAll u0 (initState u0) c7trace).2.map Resp.handledBy
      = [.purchaseFlow, .noProducts, .colorInquiry])
    ∧ (runAll u0 (initState u0) (c7trace.take 2)).1.ctx.current_products
        = some [prodX]
    ∧ truthy (runAll u0 (initState u0)
        (c7trace.take 2)).1.ctx.in_purchase_flow = true
    ∧ (runAll u0 (initState u0) c7trace).1.ctx.current_products
        = some [prodX] := by
  decide

/-- C7 (amended): the purchase-context cleanup additionally requires the
purchase-flow flag to be unset.  For a message that reaches intent dispatch
(no policy-inquiry, warranty context-switch or direct-to-GPT path), with a
resolved intent other than `product_inquiry` and no purchase keyword:
if `in_purchase_flow` is not truthy the purchase keys are cleared; if it IS
truthy the message is instead handled by the colour-inquiry shortcut or the
purchase flow (and the cache is not cleared). -/
theorem C7_amended_cleanup_needs_flag_unset (c : Ctx) (msg : String)
    (o : Oracle)
    (h1 : is_warranty_policy_inquiry msg = false)
    (h2 : containsAny (pyLower msg) warranty_queries = false)
    (h3 : should_use_gpt_directly msg = false)
    (h4 : (understand msg o).1 ≠ "product_inquiry")
    (h5 : containsAny (pyLower msg) purchase_kws = false) :
    (truthy c.in_purchase_flow = false →
       purchaseKeysClear (routeBody c msg o).1)
    ∧ (truthy c.in_purchase_flow = true →
       (understand msg o).1 ≠ "order_status" →
       (routeBody c msg o).2.handledBy
         ∈ ([.colorInquiry, .purchaseFlow, .noProducts] : List Handler)) := by
  constructor
  · intro hipf
    unfold routeBody
    rw [if_neg (by simp [h1]), context_switching_none c msg o h1 h2]
    try dsimp only []
    rw [if_neg (by simp [h3])]
    rw [if_pos (by split <;> simp [h4, h5, hipf, truthy_some])]
    apply routeDispatch_pkeys _ _ _ _ _ _ h4 h5
    unfold purchaseKeysClear
    simp
  · intro hipf h6
    unfold routeBody
    rw [if_neg (by simp [h1]), context_switching_none c msg o h1 h2]
    try dsimp only []
    rw [if_neg (by simp [h3])]
    rw [if_neg (by split <;> simp_all [hipf])]
    rw [if_neg (by simp [h6])]
    unfold routeDispatch
    try dsimp only []
    rw [if_neg (by simp [comparison_kws_false_of_not_gpt_direct msg h3])]
    split
    · simp
    · rw [if_pos (by simp [hipf])]
      rcases purchase_flow_handledBy
          { c with in_purchase_flow := some true } (understand msg o).2 o with
        hq | hq <;> simp [hq]

/-- Witness for `C7_amended_cleanup_needs_flag_unset` at the message
"thanks anyway": cleared when the flag is unset, colour/purchase handling
when it is set. -/
theorem C7_amended_cleanup_witness :
    purchaseKeysClear (routeBody
      { user_data := some u0, current_products := some [prodX],
        last_search_query := some "gaming laptop" } "thanks anyway"
      { search_query := "thanks" }).1
    ∧ (routeBody
        { user_data := some u0, current_products := some [prodX],
          last_search_query := some "gaming laptop",
          in_purchase_flow := some true } "thanks anyway"
        { search_query := "thanks" }).2.handledBy
      ∈ ([.colorInquiry, .purchaseFlow, .noProducts] : List Handler) :=
  ⟨(C7_amended_cleanup_needs_flag_unset _ "thanks anyway"
      { search_query := "thanks" } (by decide) (by decide) (by decide)
      (by decide) (by decide)).1 (by decide),
   (C7_amended_cleanup_needs_flag_unset _ "thanks anyway"
      { search_query := "thanks" } (by decide) (by decide) (by decide)
      (by decide) (by decide)).2 (by decide) (by decide)⟩

end ShopEZ
